import Mathlib

/-!
Shallow embedding of the Obsidian CalDAV sync plugin (`src/main.ts`).

The plugin reconciles local markdown event records with a remote CalDAV
calendar.  Pure logic (event mapping, status checks, the reconciliation
loop) is embedded as executable Lean functions; host collaborators
(HTTP transport `requestUrl`, the ICS codec `convertIcsCalendar`, the
JavaScript `Date` constructor and `moment` formatting) are abstracted
as outcome values and function parameters, so every branch the source
takes on a given outcome is mirrored by a branch here.

Conventions:
  - JavaScript string truthiness (`undefined`/`""` falsy) is `truthyS`.
  - `a || b` on strings is `jsOr`.
  - JS `Date` values are epoch milliseconds (`Int`); `jsDate` is the
    parameter modelling `new Date(s).getTime()`.
  - A `requestUrl` call either throws (`Except.error ()`) or returns a
    response; responses carry the numeric status and the body text.
  - ICS parsing (`convertIcsCalendar`) is a parameter
    `parse : String → IcsCalendar`.
-/

namespace CalDAVSync

/-- JavaScript truthiness of an optional string: `undefined` and the empty
string are falsy (used by `if (frontmatter.date)`, `local_event.start_time ?`,
etc. in `main.ts`). -/
def truthyS : Option String → Bool
  | none => false
  | some s => !(s == "")

/-- JavaScript `o || d` on an optional string: yields `d` when `o` is
`undefined` or empty. -/
def jsOr (o : Option String) (d : String) : String :=
  match o with
  | none => d
  | some s => if s == "" then d else s

/-- The `type` tag of an ICS date (`'DATE'` or `'DATE-TIME'` in ts-ics). -/
inductive DateType where
  | DATE
  | DATETIME
  deriving DecidableEq

/-- `status.toString().startsWith("2")`, the success test `main.ts` applies to
every HTTP status (lines 208, 215, 245).  Since the pattern is the single
character `"2"`, it is embedded as "the first character of the decimal
representation is `'2'`". -/
def starts2 (s : Nat) : Bool := (toString s).data.head? == some '2'

/-- A genuine 2xx HTTP status. -/
def is2xx (s : Nat) : Prop := 200 ≤ s ∧ s ≤ 299

/-- A status an HTTP server can actually return (three digits, 100–599). -/
def httpStatus (s : Nat) : Prop := 100 ≤ s ∧ s ≤ 599

instance (s : Nat) : Decidable (is2xx s) := by unfold is2xx; infer_instance

instance (s : Nat) : Decidable (httpStatus s) := by unfold httpStatus; infer_instance

/-- The local event record built from a markdown file (`ObsidianEvent` in
`main.ts`).  `location`, `url`, `guid` and the two times may be absent in the
frontmatter, so they are optional here. -/
structure ObsidianEvent where
  date : String
  start_time : Option String
  end_time : Option String
  summary : String
  description : String
  location : Option String
  url : Option String
  guid : Option String
  deriving DecidableEq

/-- The frontmatter key→value map of a markdown file (the fields `main.ts`
reads). -/
structure Frontmatter where
  type : Option String
  date : Option String
  start_time : Option String
  end_time : Option String
  location : Option String
  url : Option String
  guid : Option String
  deriving DecidableEq

/-- A markdown file as the plugin sees it: base name, cached frontmatter
(absent when the file has none), raw content, and the offset at which the
frontmatter block ends (`frontmatterPosition.end.offset`). -/
structure FileRec where
  basename : String
  frontmatter : Option Frontmatter
  content : String
  fmEndOffset : Nat
  deriving DecidableEq

/-- `tryCreateObsidianEvent` (main.ts lines 18–38): a record is eligible only
when its frontmatter `type` is `'calendar-event'` and `date` is truthy; the
description is the content after the frontmatter block. -/
def tryCreateObsidianEvent (filename : String) (fm? : Option Frontmatter)
    (content : String) (fmEndOffset : Nat) : Option ObsidianEvent :=
  match fm? with
  | none => none
  | some fm =>
    if truthyS fm.type && fm.type == some "calendar-event" then
      if truthyS fm.date then
        some { date := fm.date.getD "", start_time := fm.start_time,
               end_time := fm.end_time, summary := filename,
               description := content.drop (fmEndOffset + 1),
               location := fm.location, url := fm.url, guid := fm.guid }
      else none
    else none

/-- A start/end value of a generated ICS event: epoch milliseconds plus the
DATE / DATE-TIME tag. -/
structure IcsDateTime where
  date : Int
  type : DateType
  deriving DecidableEq

/-- The single-event ICS payload `syncEvent` builds (main.ts lines 166–185).
`start`/`end` are always assigned before use, so they are plain fields;
`end` is spelled `ics_end` because `end` is reserved in Lean. -/
structure IcsEvent where
  summary : String
  description : String
  uid : String
  created : Int
  stamp : Int
  location : Option String
  start : IcsDateTime
  ics_end : IcsDateTime
  deriving DecidableEq

/-- Construction of the outgoing ICS event inside `syncEvent`
(main.ts lines 162–185): the uid is `local_event.guid || uuidv4()+"@obsidian.md"`
(`freshUuid` stands for the `uuidv4()` draw); with a truthy `start_time` the
event is DATE-TIME typed, its end defaulting to start + 3600000 ms when
`end_time` is falsy; otherwise it is DATE typed spanning 86400000 ms from
`new Date(date)`. -/
def buildEvent (jsDate : String → Int) (now : Int) (freshUuid : String)
    (le : ObsidianEvent) : IcsEvent :=
  let uuid := jsOr le.guid (freshUuid ++ "@obsidian.md")
  if truthyS le.start_time then
    let start := jsDate (le.date ++ "T" ++ le.start_time.getD "" ++ ":00")
    let stop := if truthyS le.end_time then
        jsDate (le.date ++ "T" ++ le.end_time.getD "" ++ ":00")
      else start + 3600000
    { summary := le.summary, description := le.description, uid := uuid,
      created := now, stamp := now, location := le.location,
      start := ⟨start, DateType.DATETIME⟩,
      ics_end := ⟨stop, DateType.DATETIME⟩ }
  else
    let start := jsDate le.date
    { summary := le.summary, description := le.description, uid := uuid,
      created := now, stamp := now, location := le.location,
      start := ⟨start, DateType.DATE⟩,
      ics_end := ⟨start + 86400000, DateType.DATE⟩ }

/-- The calendar-day rendering (`moment(d).format('YYYY-MM-DD')`) and
time-of-day rendering (`format('HH:mm')`) of one remote date value.  The
source only ever consumes remote dates through these two formats, so the
embedding carries the formatted views directly. -/
structure LocalDT where
  ymd : String
  hm : String
  deriving DecidableEq

/-- A start or end value of a parsed remote ICS event. -/
structure RemoteIcsTime where
  dt : LocalDT
  type : DateType
  deriving DecidableEq

/-- A VEVENT as parsed by `convertIcsCalendar` (the fields `main.ts` reads). -/
structure RemoteEvent where
  uid : String
  summary : String
  description : Option String
  location : Option String
  url : Option String
  start : RemoteIcsTime
  ics_end : Option RemoteIcsTime
  deriving DecidableEq

/-- A parsed ICS calendar; ts-ics leaves `events` optional. -/
structure IcsCalendar where
  events : Option (List RemoteEvent)
  deriving DecidableEq

/-- `calendar.events?.[0]?.url` (main.ts line 218). -/
def urlOfFirst (cal : IcsCalendar) : Option String :=
  match cal.events with
  | none => none
  | some evs =>
    match evs.head? with
    | none => none
    | some v => v.url

/-- The environment of one `syncEvent` call: the current instant, the
`uuidv4()` draw, and the outcomes of the two `requestUrl` calls.  An outcome
is `Except.error ()` when the call throws (transport failure) and
`Except.ok (status, bodyText)` when it returns. -/
structure SyncEffects where
  now : Int
  freshUuid : String
  putOutcome : Except Unit Nat
  checkOutcome : Except Unit (Nat × String)

/-- `syncEvent` (main.ts lines 162–227).  Builds the ICS event, issues the
PUT; on a status whose text starts with "2" issues the verify PROPFIND; on a
"2"-status there it parses the body, sets the record's `guid` to the uid it
sent (`event.uid`) and `url` to the first parsed event's url, and returns
`true`.  Every other path — including a thrown transport error, which the
`try/catch` converts — returns `false` with the record untouched. -/
def syncEvent (parse : String → IcsCalendar) (jsDate : String → Int)
    (eff : SyncEffects) (le : ObsidianEvent) : Bool × ObsidianEvent :=
  let event := buildEvent jsDate eff.now eff.freshUuid le
  match eff.putOutcome with
  | Except.error _ => (false, le)
  | Except.ok putStatus =>
    if starts2 putStatus then
      match eff.checkOutcome with
      | Except.error _ => (false, le)
      | Except.ok checkResp =>
        if starts2 checkResp.1 then
          let calendar := parse checkResp.2
          (true, { le with guid := some event.uid, url := urlOfFirst calendar })
        else (false, le)
    else (false, le)

/-- `getUUIDFromEventFile` (main.ts lines 138–142): the file's frontmatter
`guid` when truthy, else `''`. -/
def getUUIDFromEventFile (doc : FileRec) : String :=
  match doc.frontmatter with
  | none => ""
  | some fm => if truthyS fm.guid then fm.guid.getD "" else ""

/-- `syncEventFile` (main.ts lines 144–156): parse the file into a record;
if eligible, run `syncEvent`; only when it reports success write the
(possibly mutated) `guid` and `url` back into the frontmatter. -/
def syncEventFile (parse : String → IcsCalendar) (jsDate : String → Int)
    (eff : SyncEffects) (doc : FileRec) : FileRec :=
  match tryCreateObsidianEvent doc.basename doc.frontmatter doc.content doc.fmEndOffset with
  | none => doc
  | some ev =>
    let r := syncEvent parse jsDate eff ev
    if r.1 then
      match doc.frontmatter with
      | none => doc
      | some fm =>
        { doc with frontmatter := some { fm with guid := r.2.guid, url := r.2.url } }
    else doc

/-- One iteration of the `Promise.all` fan-out in the `sync-all-events`
command (main.ts lines 82–86): for each file, first read its current guid
(pre-sync), then run `syncEventFile` on it; the guid is contributed to the
known-identifiers set only when truthy. -/
def pushJob (parse : String → IcsCalendar) (jsDate : String → Int)
    (job : FileRec × SyncEffects) : Option String × FileRec :=
  let guid := getUUIDFromEventFile job.1
  let doc := syncEventFile parse jsDate job.2 job.1
  (if guid = "" then none else some guid, doc)

/-- The known-identifiers set `my_set` collected by the fan-out. -/
def knownIds (parse : String → IcsCalendar) (jsDate : String → Int)
    (jobs : List (FileRec × SyncEffects)) : List String :=
  jobs.filterMap (fun job => (pushJob parse jsDate job).1)

/-- Result of `fetchCalendar`: the parsed calendar when the status started
with "2", otherwise an absent calendar with the failure logged via
`console.error`. -/
structure FetchResult where
  calendar : Option IcsCalendar
  loggedError : Bool
  deriving DecidableEq

/-- `fetchCalendar` (main.ts lines 229–250).  The `requestUrl` call is NOT
wrapped in `try/catch`, so a thrown transport error propagates to the caller
(`Except.error`); a returned response is parsed on a "2"-status and otherwise
logged and turned into an absent result. -/
def fetchCalendar (parse : String → IcsCalendar)
    (outcome : Except Unit (Nat × String)) : Except Unit FetchResult :=
  match outcome with
  | Except.error e => Except.error e
  | Except.ok resp =>
    if starts2 resp.1 then Except.ok ⟨some (parse resp.2), false⟩
    else Except.ok ⟨none, true⟩

/-- `value.summary.replace(/[\/\\:]/g, '_')` (main.ts line 110). -/
def sanitizeChar (c : Char) : Char :=
  if c == '/' || c == '\\' || c == ':' then '_' else c

/-- File-name sanitization applied to a remote summary. -/
def sanitizeFileName (s : String) : String := s.map sanitizeChar

/-- What the import loop does with one remote event: create a local record
(the file name, its body, and the frontmatter props in insertion order), or
skip it with the "multi-day unsupported" notice. -/
inductive ImportAction where
  | created (fileName : String) (body : String) (props : List (String × Option String))
  | skippedMultiDay
  deriving DecidableEq

/-- One iteration of the import loop (main.ts lines 90–113).  A uid already
in the known set yields no action at all; otherwise the props are assembled
in source order (`type`, `date`, `guid`, `url`, `location`), a DATE-TIME
start adds `start_time`, an end on the same rendered calendar day adds
`end_time`, and an end on a different day aborts the iteration with the
multi-day notice. -/
def importStep (known : List String) (v : RemoteEvent) : Option ImportAction :=
  if v.uid ∈ known then none
  else
    let baseProps : List (String × Option String) :=
      [("type", some "calendar-event"), ("date", some v.start.dt.ymd),
       ("guid", some v.uid), ("url", v.url), ("location", v.location)]
    if v.start.type = DateType.DATETIME then
      let props := baseProps ++ [("start_time", some v.start.dt.hm)]
      match v.ics_end with
      | some e =>
        if e.dt.ymd == v.start.dt.ymd then
          some (ImportAction.created (sanitizeFileName v.summary)
            (jsOr v.description "") (props ++ [("end_time", some e.dt.hm)]))
        else some ImportAction.skippedMultiDay
      | none =>
        some (ImportAction.created (sanitizeFileName v.summary)
          (jsOr v.description "") props)
    else
      some (ImportAction.created (sanitizeFileName v.summary)
        (jsOr v.description "") baseProps)

/-- The whole import loop: the loop body carries no state across iterations
(the known set is not modified inside it), so it is a map. -/
def importPhase (known : List String) (events : List RemoteEvent) :
    List (Option ImportAction) :=
  events.map (importStep known)

/-- Number of "multi-day unsupported" notices one import-loop iteration
emits. -/
def warnCount : Option ImportAction → Nat
  | some ImportAction.skippedMultiDay => 1
  | _ => 0

/-- Whether an import-loop iteration created a local record whose `guid`
prop is `u`. -/
def createsUid (a : Option ImportAction) (u : String) : Bool :=
  match a with
  | some (ImportAction.created _ _ props) => decide (("guid", some u) ∈ props)
  | _ => false

/-- Whether any iteration of the import phase materialized a record with
`guid` prop `u`. -/
def materializesUid (acts : List (Option ImportAction)) (u : String) : Bool :=
  acts.any (fun a => createsUid a u)

/-- Outcome of one full `sync-all-events` pass that did not throw: the
post-push files, the known-identifiers set, whether the fetch failure was
logged, the import-loop actions (`none` when the import phase did not run),
and whether the final "all synchronized" notice fired. -/
structure PassResult where
  docs : List FileRec
  known : List String
  fetchLogged : Bool
  importActions : Option (List (Option ImportAction))
  allSyncedNotice : Bool
  deriving DecidableEq

/-- The `sync-all-events` command callback (main.ts lines 76–117): fan out
the push jobs and collect known identifiers, then fetch the collection, and
when a calendar with an `events` array came back run the import loop and
show the completion notice.  A throwing fetch propagates (`Except.error`). -/
def fullSyncPass (parse : String → IcsCalendar) (jsDate : String → Int)
    (jobs : List (FileRec × SyncEffects))
    (fetchOutcome : Except Unit (Nat × String)) : Except Unit PassResult :=
  let pushed := jobs.map (fun job => pushJob parse jsDate job)
  let known := knownIds parse jsDate jobs
  match fetchCalendar parse fetchOutcome with
  | Except.error e => Except.error e
  | Except.ok fr =>
    match fr.calendar with
    | none =>
      Except.ok { docs := pushed.map Prod.snd, known := known,
                  fetchLogged := fr.loggedError, importActions := none,
                  allSyncedNotice := false }
    | some cal =>
      match cal.events with
      | none =>
        Except.ok { docs := pushed.map Prod.snd, known := known,
                    fetchLogged := fr.loggedError, importActions := none,
                    allSyncedNotice := false }
      | some evs =>
        Except.ok { docs := pushed.map Prod.snd, known := known,
                    fetchLogged := fr.loggedError,
                    importActions := some (importPhase known evs),
                    allSyncedNotice := true }

/-! Concrete fixtures used by witnesses and counterexamples. -/

/-- A remote VEVENT as a server could return it from the verify PROPFIND:
its uid differs from anything the client sends, its url is the
server-assigned resource locator. -/
def fxRemote : RemoteEvent :=
  { uid := "server-uid-999", summary := "Standup", description := none,
    location := none, url := some "https://cal.example/abc",
    start := ⟨⟨"2024-05-01", "10:00"⟩, DateType.DATETIME⟩, ics_end := none }

/-- Parser fixture: every body text parses to a calendar holding `fxRemote`. -/
def fxParse : String → IcsCalendar := fun _ => ⟨some [fxRemote]⟩

/-- `new Date` fixture: any concrete interpretation works for the theorems;
this one maps a string to its length in milliseconds. -/
def fxJsDate : String → Int := fun s => (s.length : Int)

/-- A local record not yet synced (no guid, no url, all-day). -/
def fxRecord : ObsidianEvent :=
  { date := "2024-05-01", start_time := none, end_time := none,
    summary := "Standup", description := "", location := none,
    url := none, guid := none }

/-- Effects of one successful sync: PUT returned 201, PROPFIND returned 207. -/
def fxEffects : SyncEffects :=
  { now := 0, freshUuid := "f4a2", putOutcome := Except.ok 201,
    checkOutcome := Except.ok (207, "BODY") }

/-- Effects of a failed sync: the PUT came back with HTTP 500. -/
def fxFail : SyncEffects :=
  { now := 0, freshUuid := "f4a2", putOutcome := Except.ok 500,
    checkOutcome := Except.ok (207, "BODY") }

/-- Frontmatter of an eligible event file that already has a guid. -/
def fxFrontmatter : Frontmatter :=
  { type := some "calendar-event", date := some "2024-05-01",
    start_time := none, end_time := none, location := none,
    url := none, guid := some "g1" }

/-- An eligible event file. -/
def fxFile : FileRec :=
  { basename := "Standup", frontmatter := some fxFrontmatter,
    content := "---\nfm\n---\nbody", fmEndOffset := 10 }

/-- A one-file job list for full-pass witnesses. -/
def fxJobs : List (FileRec × SyncEffects) := [(fxFile, fxEffects)]

/-- A known-identifiers fixture containing `fxRemote`'s uid. -/
def fxKnown : List String := ["known-1", "server-uid-999"]

/-- A timed remote event whose end renders on the next calendar day. -/
def fxMultiDay : RemoteEvent :=
  { uid := "md-1", summary := "Trip", description := none, location := none,
    url := none, start := ⟨⟨"2024-05-01", "22:00"⟩, DateType.DATETIME⟩,
    ics_end := some ⟨⟨"2024-05-02", "02:00"⟩, DateType.DATETIME⟩ }

/-- An all-day remote event spanning three calendar days. -/
def fxAllDay : RemoteEvent :=
  { uid := "ad-1", summary := "Conf/2024", description := some "three days",
    location := none, url := none,
    start := ⟨⟨"2024-05-01", "00:00"⟩, DateType.DATE⟩,
    ics_end := some ⟨⟨"2024-05-04", "00:00"⟩, DateType.DATE⟩ }

/-! Helper lemmas. -/

-- On the statuses an HTTP server can return, the source's
-- `toString().startsWith("2")` test agrees with membership in 200–299.
set_option maxRecDepth 10000 in
theorem starts2_eq :
    ∀ s : Nat, s < 600 → (100 ≤ s → starts2 s = (decide (200 ≤ s) && decide (s ≤ 299))) := by
  decide

theorem starts2_of_is2xx (s : Nat) (h : is2xx s) : starts2 s = true := by
  obtain ⟨h1, h2⟩ := h
  rw [starts2_eq s (by omega) (by omega)]
  simp [h1, h2]

theorem starts2_eq_false (s : Nat) (hs : httpStatus s) (h : ¬ is2xx s) :
    starts2 s = false := by
  obtain ⟨h1, h2⟩ := hs
  rw [starts2_eq s (by omega) h1]
  by_cases hA : 200 ≤ s <;> by_cases hB : s ≤ 299 <;> simp [hA, hB]
  exact absurd ⟨hA, hB⟩ h

/-- Both branches of `buildEvent` assign the same uid:
`local_event.guid || uuidv4() + "@obsidian.md"`. -/
theorem buildEvent_uid (jsDate : String → Int) (now : Int) (freshUuid : String)
    (le : ObsidianEvent) :
    (buildEvent jsDate now freshUuid le).uid = jsOr le.guid (freshUuid ++ "@obsidian.md") := by
  unfold buildEvent
  by_cases h : truthyS le.start_time <;> simp [h]

/-- The identifier a push job contributes to `my_set` is exactly its file's
pre-sync guid, and only when that guid is truthy. -/
theorem pushJob_fst (parse : String → IcsCalendar) (jsDate : String → Int)
    (job : FileRec × SyncEffects) (id : String) :
    (pushJob parse jsDate job).1 = some id ↔
      getUUIDFromEventFile job.1 = id ∧ id ≠ "" := by
  simp only [pushJob]
  split_ifs with h
  · exact iff_of_false (by simp) (fun hc => hc.2 (hc.1.symm.trans h))
  · constructor
    · intro hsome
      have hid := Option.some.inj hsome
      exact ⟨hid, fun hcon => h (hid.trans hcon)⟩
    · intro hc
      exact congrArg some hc.1

/-- An import-loop iteration never creates a record carrying a guid that is
already in the known set. -/
theorem createsUid_of_known (known : List String) (w : RemoteEvent) (u : String)
    (hu : u ∈ known) : createsUid (importStep known w) u = false := by
  by_cases hw : w.uid ∈ known
  · simp [importStep, hw, createsUid]
  · have hne : ¬ u = w.uid := fun h => hw (h ▸ hu)
    unfold importStep
    by_cases ht : w.start.type = DateType.DATETIME
    · cases he : w.ics_end with
      | none => simp [hw, ht, he, createsUid, hne]
      | some e =>
        by_cases hd : e.dt.ymd == w.start.dt.ymd <;>
          simp [hw, ht, he, hd, createsUid, hne]
    · simp [hw, ht, createsUid, hne]

/-! Claim theorems. -/

/-- C7: a record with a non-empty guid maps to an event reusing that guid
verbatim as `uid`; a record whose guid is empty or absent gets the freshly
generated `<uuid-v4>@obsidian.md` identifier (here `freshUuid` stands for the
`uuidv4()` draw, and `@obsidian.md` is the fixed namespace suffix). -/
theorem C7_guid_reuse (jsDate : String → Int) (now : Int) (freshUuid : String)
    (le : ObsidianEvent) :
    (∀ g, le.guid = some g → g ≠ "" → (buildEvent jsDate now freshUuid le).uid = g) ∧
    ((le.guid = none ∨ le.guid = some "") →
      (buildEvent jsDate now freshUuid le).uid = freshUuid ++ "@obsidian.md") := by
  constructor
  · intro g hg hne
    rw [buildEvent_uid, hg]
    simp [jsOr, hne]
  · intro h
    rw [buildEvent_uid]
    rcases h with h | h <;> simp [jsOr, h]

/-- Witness for C7 at concrete records: a guid `"keep-me"` is reused, and the
guid-less `fxRecord` gets `"f4a2@obsidian.md"`. -/
theorem C7_guid_reuse_witness :
    (buildEvent fxJsDate 0 "f4a2" { fxRecord with guid := some "keep-me" }).uid = "keep-me" ∧
    (buildEvent fxJsDate 0 "f4a2" fxRecord).uid = "f4a2" ++ "@obsidian.md" :=
  ⟨(C7_guid_reuse fxJsDate 0 "f4a2" { fxRecord with guid := some "keep-me" }).1
      "keep-me" rfl (by decide),
   (C7_guid_reuse fxJsDate 0 "f4a2" fxRecord).2 (Or.inl rfl)⟩

/-- C8: a record with a (truthy) start_time and no (truthy) end_time maps to a
DATE-TIME-typed start and a DATE-TIME-typed end exactly 3600000 ms — one
hour — after the start. -/
theorem C8_default_one_hour (jsDate : String → Int) (now : Int) (freshUuid : String)
    (le : ObsidianEvent) (hst : truthyS le.start_time = true)
    (hend : truthyS le.end_time = false) :
    (buildEvent jsDate now freshUuid le).start.type = DateType.DATETIME ∧
    (buildEvent jsDate now freshUuid le).ics_end.type = DateType.DATETIME ∧
    (buildEvent jsDate now freshUuid le).ics_end.date =
      (buildEvent jsDate now freshUuid le).start.date + 3600000 := by
  unfold buildEvent
  simp [hst, hend]

/-- Witness for C8 at the record `date 2024-05-01, start_time 10:00, no
end_time`. -/
theorem C8_default_one_hour_witness :
    (buildEvent fxJsDate 0 "f4a2" { fxRecord with start_time := some "10:00" }).start.type
        = DateType.DATETIME ∧
    (buildEvent fxJsDate 0 "f4a2" { fxRecord with start_time := some "10:00" }).ics_end.type
        = DateType.DATETIME ∧
    (buildEvent fxJsDate 0 "f4a2" { fxRecord with start_time := some "10:00" }).ics_end.date
        = (buildEvent fxJsDate 0 "f4a2" { fxRecord with start_time := some "10:00" }).start.date
            + 3600000 :=
  C8_default_one_hour fxJsDate 0 "f4a2" { fxRecord with start_time := some "10:00" }
    (by decide) (by decide)

/-- C9: a record without a (truthy) start_time maps to a DATE-typed start at
`new Date(record.date)` — the record's date at midnight — and a DATE-typed end
exactly 86400000 ms (one day) later, and the start/end are the same for any
other record with the same date and no start_time, regardless of every other
field and of the sync instant and uuid draw. -/
theorem C9_all_day_one_day (jsDate : String → Int) (now : Int) (freshUuid : String)
    (le : ObsidianEvent) (hst : truthyS le.start_time = false) :
    (buildEvent jsDate now freshUuid le).start = ⟨jsDate le.date, DateType.DATE⟩ ∧
    (buildEvent jsDate now freshUuid le).ics_end =
      ⟨jsDate le.date + 86400000, DateType.DATE⟩ ∧
    (∀ (now2 : Int) (fresh2 : String) (le2 : ObsidianEvent), le2.date = le.date →
      truthyS le2.start_time = false →
      (buildEvent jsDate now2 fresh2 le2).start = (buildEvent jsDate now freshUuid le).start ∧
      (buildEvent jsDate now2 fresh2 le2).ics_end =
        (buildEvent jsDate now freshUuid le).ics_end) := by
  refine ⟨by unfold buildEvent; simp [hst], by unfold buildEvent; simp [hst], ?_⟩
  intro now2 fresh2 le2 hdate hst2
  unfold buildEvent
  simp [hst, hst2, hdate]

/-- Witness for C9: `fxRecord` has no start_time; a record differing in every
other field but sharing the date produces the same DATE-typed one-day span. -/
theorem C9_all_day_one_day_witness :
    (buildEvent fxJsDate 0 "f4a2" fxRecord).start = ⟨fxJsDate "2024-05-01", DateType.DATE⟩ ∧
    (buildEvent fxJsDate 0 "f4a2" fxRecord).ics_end =
      ⟨fxJsDate "2024-05-01" + 86400000, DateType.DATE⟩ ∧
    (buildEvent fxJsDate 7 "other"
        { date := "2024-05-01", start_time := none, end_time := some "11:00",
          summary := "Other", description := "body", location := some "here",
          url := some "u", guid := some "g9" }).start
      = (buildEvent fxJsDate 0 "f4a2" fxRecord).start :=
  have h := C9_all_day_one_day fxJsDate 0 "f4a2" fxRecord (by decide)
  ⟨h.1, h.2.1,
   (h.2.2 7 "other"
      { date := "2024-05-01", start_time := none, end_time := some "11:00",
        summary := "Other", description := "body", location := some "here",
        url := some "u", guid := some "g9" } rfl (by decide)).1⟩

/-- C1 (amended): when the push PUT and the verify PROPFIND both return 2xx
statuses, `syncEvent` reports success, sets the record's url to the URL
property of the first VEVENT parsed from the verify response body, and sets
the record's guid to the uid the routine itself sent — the record's
pre-existing guid, or the freshly generated `<uuid-v4>@obsidian.md` — not to
a uid read back from the verify response. -/
theorem C1_success_sets_ids (parse : String → IcsCalendar) (jsDate : String → Int)
    (eff : SyncEffects) (le : ObsidianEvent) (ps cs : Nat) (text : String)
    (hput : eff.putOutcome = Except.ok ps) (h2p : is2xx ps)
    (hcheck : eff.checkOutcome = Except.ok (cs, text)) (h2c : is2xx cs) :
    syncEvent parse jsDate eff le =
      (true, { le with
               guid := some (jsOr le.guid (eff.freshUuid ++ "@obsidian.md")),
               url := urlOfFirst (parse text) }) := by
  unfold syncEvent
  rw [hput]
  simp [hcheck, starts2_of_is2xx ps h2p, starts2_of_is2xx cs h2c, buildEvent_uid]

/-- Witness for C1's amended theorem: PUT 201, PROPFIND 207 against
`fxRecord`. -/
theorem C1_success_sets_ids_witness :
    syncEvent fxParse fxJsDate fxEffects fxRecord =
      (true, { fxRecord with
               guid := some (jsOr fxRecord.guid (fxEffects.freshUuid ++ "@obsidian.md")),
               url := urlOfFirst (fxParse "BODY") }) :=
  C1_success_sets_ids fxParse fxJsDate fxEffects fxRecord 201 207 "BODY"
    rfl (by decide) rfl (by decide)

/-- Counterexample to C1 as stated: push returns 201, verify returns 207 and
its body parses to exactly one VEVENT whose uid is `"server-uid-999"` and
whose URL property is `"https://cal.example/abc"`.  The routine reports
success and the record's url does become the VEVENT's URL, but the record's
guid becomes the client-generated `"f4a2@obsidian.md"`, not the uid read back
from the verify response body. -/
theorem C1_counterexample :
    (fxParse "BODY").events = some [fxRemote] ∧
    fxRemote.uid = "server-uid-999" ∧
    syncEvent fxParse fxJsDate fxEffects fxRecord =
      (true, { fxRecord with
               guid := some "f4a2@obsidian.md",
               url := some "https://cal.example/abc" }) ∧
    ("f4a2@obsidian.md" : String) ≠ "server-uid-999" := by
  refine ⟨rfl, rfl, by decide, by decide⟩

/-- C3: whenever the push PUT returns a non-2xx status, or a transport
exception occurs on either request, or the verify PROPFIND returns a non-2xx
status, `syncEvent` returns `false` with the record unchanged (the model's
total return type reflects that the `try/catch` lets no exception escape),
and `syncEventFile` leaves the file's frontmatter untouched. -/
theorem C3_failure_no_mutation (parse : String → IcsCalendar) (jsDate : String → Int)
    (eff : SyncEffects) (le : ObsidianEvent) (doc : FileRec)
    (h : eff.putOutcome = Except.error () ∨
         (∃ ps, eff.putOutcome = Except.ok ps ∧ httpStatus ps ∧ ¬ is2xx ps) ∨
         eff.checkOutcome = Except.error () ∨
         (∃ cs text, eff.checkOutcome = Except.ok (cs, text) ∧ httpStatus cs ∧ ¬ is2xx cs)) :
    syncEvent parse jsDate eff le = (false, le) ∧
    syncEventFile parse jsDate eff doc = doc := by
  have hsync : ∀ ev : ObsidianEvent, syncEvent parse jsDate eff ev = (false, ev) := by
    intro ev
    unfold syncEvent
    rcases h with h | ⟨ps, hps, hr, h2⟩ | h | ⟨cs, text, hcs, hr, h2⟩
    · simp [h]
    · rw [hps]
      simp [starts2_eq_false ps hr h2]
    · cases hput : eff.putOutcome with
      | error e => rfl
      | ok ps =>
        by_cases hp : starts2 ps <;> simp [hp, h]
    · cases hput : eff.putOutcome with
      | error e => rfl
      | ok ps =>
        by_cases hp : starts2 ps <;>
          simp [hp, hcs, starts2_eq_false cs hr h2]
  refine ⟨hsync le, ?_⟩
  unfold syncEventFile
  cases htc : tryCreateObsidianEvent doc.basename doc.frontmatter doc.content doc.fmEndOffset with
  | none => rfl
  | some ev => simp [hsync ev]

/-- Witness for C3: the PUT comes back with HTTP 500; the record and the file
are returned unchanged and the result is `false`. -/
theorem C3_failure_no_mutation_witness :
    syncEvent fxParse fxJsDate fxFail fxRecord = (false, fxRecord) ∧
    syncEventFile fxParse fxJsDate fxFail fxFile = fxFile :=
  C3_failure_no_mutation fxParse fxJsDate fxFail fxRecord fxFile
    (Or.inr (Or.inl ⟨500, rfl, by decide, by decide⟩))

/-- C2 (amended): when the collection fetch RETURNS a non-2xx status,
`fetchCalendar` surfaces an absent calendar and logs the failure, and the
full pass still completes its push phase (every job's file is the pushed
one), performs no import-phase activity, shows no completion notice, and
does not end in an unhandled error.  A transport exception, by contrast, is
not caught in `fetchCalendar` and propagates (see the counterexample). -/
theorem C2_fetch_status_failure (parse : String → IcsCalendar) (jsDate : String → Int)
    (jobs : List (FileRec × SyncEffects)) (st : Nat) (text : String)
    (hr : httpStatus st) (h2 : ¬ is2xx st) :
    fetchCalendar parse (Except.ok (st, text)) = Except.ok ⟨none, true⟩ ∧
    fullSyncPass parse jsDate jobs (Except.ok (st, text)) =
      Except.ok { docs := jobs.map (fun job => (pushJob parse jsDate job).2),
                  known := knownIds parse jsDate jobs,
                  fetchLogged := true, importActions := none,
                  allSyncedNotice := false } := by
  have hf : fetchCalendar parse (Except.ok (st, text)) = Except.ok ⟨none, true⟩ := by
    unfold fetchCalendar
    simp [starts2_eq_false st hr h2]
  refine ⟨hf, ?_⟩
  unfold fullSyncPass
  rw [hf]
  simp [List.map_map]

/-- Witness for C2's amended theorem: HTTP 404 on the collection fetch with
one push job. -/
theorem C2_fetch_status_failure_witness :
    fetchCalendar fxParse (Except.ok (404, "")) = Except.ok ⟨none, true⟩ ∧
    fullSyncPass fxParse fxJsDate fxJobs (Except.ok (404, "")) =
      Except.ok { docs := fxJobs.map (fun job => (pushJob fxParse fxJsDate job).2),
                  known := knownIds fxParse fxJsDate fxJobs,
                  fetchLogged := true, importActions := none,
                  allSyncedNotice := false } :=
  C2_fetch_status_failure fxParse fxJsDate fxJobs 404 "" (by decide) (by decide)

/-- Counterexample to C2 as stated: a collection-fetch outcome that is a
transport error (the HTTP call throws) is NOT converted to an absent result —
`fetchCalendar` has no try/catch, so the exception propagates out of the full
pass, which therefore terminates with an unhandled error. -/
theorem C2_counterexample :
    fetchCalendar fxParse (Except.error ()) = Except.error () ∧
    fullSyncPass fxParse fxJsDate fxJobs (Except.error ()) = Except.error () :=
  ⟨rfl, rfl⟩

/-- C4: an identifier is in the known-identifiers set only if it is some
file's pre-sync guid (the frontmatter guid read before that file's push);
consequently an identifier that is no file's pre-sync guid — in particular a
guid freshly assigned during the same pass — never enters the set. -/
theorem C4_known_ids_pre_sync (parse : String → IcsCalendar) (jsDate : String → Int)
    (jobs : List (FileRec × SyncEffects)) (id : String) :
    (id ∈ knownIds parse jsDate jobs →
      ∃ job ∈ jobs, getUUIDFromEventFile job.1 = id ∧ id ≠ "") ∧
    ((∀ job ∈ jobs, getUUIDFromEventFile job.1 ≠ id) →
      id ∉ knownIds parse jsDate jobs) := by
  constructor
  · intro hmem
    rw [knownIds, List.mem_filterMap] at hmem
    obtain ⟨job, hjob, hsome⟩ := hmem
    exact ⟨job, hjob, (pushJob_fst parse jsDate job id).mp hsome⟩
  · intro hall hmem
    rw [knownIds, List.mem_filterMap] at hmem
    obtain ⟨job, hjob, hsome⟩ := hmem
    exact hall job hjob ((pushJob_fst parse jsDate job id).mp hsome).1

/-- Witness for C4: in a pass over one guid-less... rather, over `fxFile`
(pre-sync guid `"g1"`), the freshly generated `"f4a2@obsidian.md"` is no
file's pre-sync guid and hence not in the known set. -/
theorem C4_known_ids_pre_sync_witness :
    "f4a2@obsidian.md" ∉ knownIds fxParse fxJsDate fxJobs :=
  (C4_known_ids_pre_sync fxParse fxJsDate fxJobs "f4a2@obsidian.md").2 (by decide)

/-- C5: a remote event whose uid is in the known-identifiers set yields
no import action at all, and no iteration of the import phase over any
collection containing it materializes a record carrying that uid. -/
theorem C5_known_never_reimported (known : List String) (events : List RemoteEvent)
    (v : RemoteEvent) (_hmem : v ∈ events) (hknown : v.uid ∈ known) :
    importStep known v = none ∧
    materializesUid (importPhase known events) v.uid = false := by
  refine ⟨by simp [importStep, hknown], ?_⟩
  unfold materializesUid importPhase
  rw [List.any_eq_false]
  intro a ha
  rw [List.mem_map] at ha
  obtain ⟨w, hw, rfl⟩ := ha
  simp [createsUid_of_known known w v.uid hknown]

/-- Witness for C5: `fxRemote`'s uid `"server-uid-999"` is in `fxKnown`, so a
collection holding it produces no action and no record with that uid. -/
theorem C5_known_never_reimported_witness :
    importStep fxKnown fxRemote = none ∧
    materializesUid (importPhase fxKnown [fxRemote]) fxRemote.uid = false :=
  C5_known_never_reimported fxKnown [fxRemote] fxRemote (by decide) (by decide)

/-- C6: an unmatched DATE-TIME remote event whose end renders on a different
calendar day than its start is skipped with exactly one warning notice —
wherever it occurs in the collection its action is the skip, never a created
record — and the pass still processes every event of the collection. -/
theorem C6_multiday_skipped (known : List String) (events : List RemoteEvent)
    (v : RemoteEvent) (e : RemoteIcsTime)
    (hun : v.uid ∉ known) (ht : v.start.type = DateType.DATETIME)
    (he : v.ics_end = some e) (hd : e.dt.ymd ≠ v.start.dt.ymd) :
    importStep known v = some ImportAction.skippedMultiDay ∧
    warnCount (importStep known v) = 1 ∧
    (∀ i : Nat, events[i]? = some v →
      (importPhase known events)[i]? = some (some ImportAction.skippedMultiDay)) ∧
    (importPhase known events).length = events.length := by
  have hstep : importStep known v = some ImportAction.skippedMultiDay := by
    unfold importStep
    simp [hun, ht, he, hd]
  refine ⟨hstep, by rw [hstep]; rfl, ?_, by simp [importPhase]⟩
  intro i hi
  unfold importPhase
  rw [List.getElem?_map, hi]
  simp [hstep]

/-- Witness for C6: `fxMultiDay` starts 2024-05-01 22:00 and ends 2024-05-02
02:00; alone in a collection it is skipped with one warning at index 0. -/
theorem C6_multiday_skipped_witness :
    importStep [] fxMultiDay = some ImportAction.skippedMultiDay ∧
    warnCount (importStep [] fxMultiDay) = 1 ∧
    (importPhase [] [fxMultiDay])[0]? = some (some ImportAction.skippedMultiDay) ∧
    (importPhase [] [fxMultiDay]).length = 1 :=
  have h := C6_multiday_skipped [] [fxMultiDay] fxMultiDay
    ⟨⟨"2024-05-02", "02:00"⟩, DateType.DATETIME⟩ (by decide) rfl rfl (by decide)
  ⟨h.1, h.2.1, h.2.2.1 0 rfl, h.2.2.2⟩

/-- C10: an unmatched remote event whose start is DATE-typed is always
materialized, with frontmatter props `type, date, guid, url, location` only —
no start_time or end_time keys — and with no multi-day warning, whatever its
end (the multi-day rejection lives in the DATE-TIME branch alone). -/
theorem C10_allday_imported (known : List String) (v : RemoteEvent)
    (hun : v.uid ∉ known) (ht : v.start.type = DateType.DATE) :
    importStep known v = some (ImportAction.created (sanitizeFileName v.summary)
      (jsOr v.description "")
      [("type", some "calendar-event"), ("date", some v.start.dt.ymd),
       ("guid", some v.uid), ("url", v.url), ("location", v.location)]) ∧
    (∀ fn body props, importStep known v = some (ImportAction.created fn body props) →
      props.map Prod.fst = ["type", "date", "guid", "url", "location"]) ∧
    warnCount (importStep known v) = 0 := by
  have hstep : importStep known v = some (ImportAction.created (sanitizeFileName v.summary)
      (jsOr v.description "")
      [("type", some "calendar-event"), ("date", some v.start.dt.ymd),
       ("guid", some v.uid), ("url", v.url), ("location", v.location)]) := by
    unfold importStep
    have ht2 : ¬ v.start.type = DateType.DATETIME := by rw [ht]; simp
    simp [hun, ht2]
  refine ⟨hstep, ?_, by rw [hstep]; rfl⟩
  intro fn body props hprops
  rw [hstep] at hprops
  obtain ⟨-, -, rfl⟩ := ImportAction.created.inj (Option.some.inj hprops).symm
  rfl

/-- Witness for C10: the all-day `fxAllDay` spans three calendar days
(2024-05-01 to 2024-05-04) yet is materialized without time keys and without
a warning. -/
theorem C10_allday_imported_witness :
    importStep [] fxAllDay = some (ImportAction.created (sanitizeFileName fxAllDay.summary)
      (jsOr fxAllDay.description "")
      [("type", some "calendar-event"), ("date", some fxAllDay.start.dt.ymd),
       ("guid", some fxAllDay.uid), ("url", fxAllDay.url), ("location", fxAllDay.location)]) ∧
    ([(("type" : String), (some "calendar-event" : Option String)),
      ("date", some fxAllDay.start.dt.ymd), ("guid", some fxAllDay.uid),
      ("url", fxAllDay.url), ("location", fxAllDay.location)].map Prod.fst
      = ["type", "date", "guid", "url", "location"]) ∧
    warnCount (importStep [] fxAllDay) = 0 :=
  have h := C10_allday_imported [] fxAllDay (by decide) rfl
  ⟨h.1, h.2.1 (sanitizeFileName fxAllDay.summary) (jsOr fxAllDay.description "")
      [("type", some "calendar-event"), ("date", some fxAllDay.start.dt.ymd),
       ("guid", some fxAllDay.uid), ("url", fxAllDay.url), ("location", fxAllDay.location)]
      h.1,
   h.2.2⟩

end CalDAVSync
